import Mathlib

/-!
Shallow embedding of the MINDLY backend (src/python_backend/app.py).

The Firestore document store is modelled by association lists keyed by document
id (appointments, users) or by the path components of a slot document
(counsellorId, dateKey, time).  A document field that may be absent is an
`Option`; Firestore `null` and "field absent" are both `none`, matching how the
Python code reads fields back with `dict.get`.  Python truthiness of strings
("" and None are falsy) is modelled by `pyOrS`.  Timestamps (naive UTC
datetimes) are integers counting seconds; `dateOf` is `datetime.date()`
(calendar-day bucketing), with the day index standing for the date's isoformat
string (the map from day index to isoformat string is injective and monotone,
so bucketing and equality of bucket keys are preserved).  Floats are modelled
as rationals.  Side effects that the code wraps in try/except (freeing a slot,
writing a notification, the users-collection email lookup) can be made to
raise via flags in `Env`; a raised step is skipped, exactly as the except
branches do.  Store reads themselves are modelled as succeeding.
-/

/-- Association-list lookup (Firestore document get by key). -/
def alookup {κ α : Type} [DecidableEq κ] (k : κ) : List (κ × α) → Option α
  | [] => none
  | (k2, a) :: rest => if k2 = k then some a else alookup k rest

/-- Association-list insert/replace (Firestore document set/update). -/
def aset {κ α : Type} [DecidableEq κ] (k : κ) (v : α) : List (κ × α) → List (κ × α)
  | [] => [(k, v)]
  | (k2, v2) :: rest => if k2 = k then (k, v) :: rest else (k2, v2) :: aset k v rest

/-- Association-list removal (Firestore document delete). -/
def aremove {κ α : Type} [DecidableEq κ] (k : κ) : List (κ × α) → List (κ × α)
  | [] => []
  | (k2, v2) :: rest => if k2 = k then aremove k rest else (k2, v2) :: aremove k rest

theorem alookup_aset_self {κ α : Type} [DecidableEq κ] (k : κ) (v : α) (l : List (κ × α)) :
    alookup k (aset k v l) = some v := by
  induction l with
  | nil => simp [aset, alookup]
  | cons p rest ih =>
    obtain ⟨k2, v2⟩ := p
    by_cases h : k2 = k
    · simp [aset, alookup, h]
    · simp [aset, alookup, h, ih]

theorem alookup_aremove_self {κ α : Type} [DecidableEq κ] (k : κ) (l : List (κ × α)) :
    alookup k (aremove k l) = none := by
  induction l with
  | nil => simp [aremove, alookup]
  | cons p rest ih =>
    obtain ⟨k2, v2⟩ := p
    by_cases h : k2 = k
    · simp [aremove, alookup, h, ih]
    · simp [aremove, alookup, h, ih]

/-- str.lower(): character-wise lower-casing (ASCII, which covers every
string the handlers compare against). -/
def pyLower (s : String) : String := ⟨s.data.map Char.toLower⟩

/-- str.upper(): character-wise upper-casing (ASCII). -/
def pyUpper (s : String) : String := ⟨s.data.map Char.toUpper⟩

/-- Python `a or b` where `a` is an optional string: `b` when `a` is missing or
empty (falsy), else the value of `a`. -/
def pyOrS (a : Option String) (b : String) : String :=
  match a with
  | some s => if s = ("") then b else s
  | none => b

theorem pyOrS_some_ne {s : String} (b : String) (h : s ≠ ("")) : pyOrS (some s) b = s := by
  simp [pyOrS, h]

/-- An `appointments` document.  Fields the handlers read; absent fields are
`none`. -/
structure Appointment where
  counsellorId : Option String
  studentId : Option String
  userId : Option String
  studentEmail : Option String
  email : Option String
  studentName : Option String
  counsellorName : Option String
  appointmentDate : Option String
  appointmentTime : Option String
  status : Option String
  updatedAt : Option Int
deriving DecidableEq, Repr

/-- An availability slot document (counsellors/{id}/availability/{date}/slots/{time}). -/
structure Slot where
  time : Option String
  booked : Option Bool
  bookedBy : Option String
  sessionId : Option String
  active : Option Bool
  updatedAt : Option Int
deriving DecidableEq, Repr

/-- A `users` document (only the fields the handlers read). -/
structure UserDoc where
  email : Option String
  name : Option String
  displayName : Option String
deriving DecidableEq, Repr

/-- A `notifications` document as written by the handlers. -/
structure Notification where
  userId : String
  ntype : String
  title : String
  body : String
  appointmentId : String
  status : Option String
  createdAt : Int
  read : Bool
deriving DecidableEq, Repr

/-- A numeric-ish Firestore field: absent, present but not `float()`-parseable,
or numeric (floats modelled as rationals). -/
inductive NumField
  | absent
  | nonNum
  | num (q : ℚ)
deriving DecidableEq, Repr

/-- The result of `float(x)` guarded by try/except: `none` when the field is
absent or the value does not parse. -/
def NumField.parse : NumField → Option ℚ
  | .num q => some q
  | _ => none

/-- Python `d.get(k1, d.get(k2))`: fallback on key PRESENCE (not truthiness). -/
def NumField.orField : NumField → NumField → NumField
  | .absent, b => b
  | a, _ => a

/-- A `mood_scores` document (primary insights source). -/
structure MoodScoreDoc where
  userId : Option String
  recordedAt : Option Int
  createdAt : Option Int
  score : NumField
deriving DecidableEq, Repr

/-- A legacy `moods` document (insights fallback source B). -/
structure LegacyMoodDoc where
  user_id : Option String
  userId : Option String
  timestamp : Option Int
  createdAt : Option Int
  score : NumField
  mood_score : NumField
deriving DecidableEq, Repr

/-- A `chat_conversations` document (insights fallback source C).
`sentimentScore` is `(d.get('sentiment') or {}).get('score')`. -/
structure ChatDoc where
  user_id : Option String
  timestamp : Option Int
  createdAt : Option Int
  sentimentScore : NumField
deriving DecidableEq, Repr

/-- An `assessments` document. -/
structure AssessmentDoc where
  user_id : Option String
  userId : Option String
  atype : Option String
  timestamp : Option Int
  createdAt : Option Int
  score : Option ℚ
  severity : Option String
deriving DecidableEq, Repr

/-- Path key of a slot document: (counsellorId, dateKey, time). -/
abbrev SlotKey := String × String × String

/-- The document store. -/
structure AppState where
  appointments : List (String × Appointment)
  slots : List (SlotKey × Slot)
  users : List (String × UserDoc)
  notifications : List Notification
  mood_scores : List MoodScoreDoc
  moods : List LegacyMoodDoc
  chat_conversations : List ChatDoc
  assessments : List AssessmentDoc
deriving DecidableEq, Repr

/-- Request-handling environment: whether `db` was initialized, the clock, and
flags that make the individual try/except-guarded side-effect steps raise. -/
structure Env where
  dbAvailable : Bool
  now : Int
  slotFreeRaises : Bool
  notifyRaises : Bool
  userLookupRaises : Bool
deriving DecidableEq, Repr

/-- An attempted email send (send_email call with a non-empty recipient). -/
structure EmailMsg where
  toAddr : String
  subject : String
deriving DecidableEq, Repr

/-- A handler's HTTP response: `success` is the 200 `{success: true}` body. -/
inductive ApiResp
  | success
  | err (code : Nat) (msg : String)
deriving DecidableEq, Repr

/-- A handler's observable outcome: response, resulting store, emails sent. -/
structure HandlerOut where
  resp : ApiResp
  state : AppState
  emails : List EmailMsg
deriving DecidableEq, Repr

/-- `student_id = appt.get('studentId') or appt.get('userId')`, with ""
standing for a falsy result. -/
def studentIdOf (appt : Appointment) : String :=
  pyOrS appt.studentId (pyOrS appt.userId (""))

/-- Email/name resolution with the users-collection fallback, as in the
delete and update-status handlers: `if not student_email and db and
student_id:` look the student up in `users` (in a try/except). -/
def resolveStudent (env : Env) (st : AppState) (appt : Appointment) : String × String :=
  let sid := studentIdOf appt
  let semail := pyOrS appt.studentEmail (pyOrS appt.email (""))
  let sname := pyOrS appt.studentName ("")
  if semail = ("") ∧ sid ≠ ("") ∧ env.userLookupRaises = false then
    match alookup sid st.users with
    | some u =>
        ((u.email).getD (""),
         if sname = ("") then pyOrS u.name (pyOrS u.displayName ("")) else sname)
    | none => (semail, sname)
  else (semail, sname)

/-- PATCH /api/counsellor/appointments/:id/start (counsellor_start_appointment). -/
def counsellor_start_appointment (env : Env) (st : AppState)
    (appointment_id counsellor_id : String) : HandlerOut :=
  if env.dbAvailable = true then
    if counsellor_id = ("") then ⟨.err 400 ("counsellorId is required"), st, []⟩
    else
      match alookup appointment_id st.appointments with
      | none => ⟨.err 404 ("Not found"), st, []⟩
      | some appt =>
        if appt.counsellorId = some counsellor_id then
          let appt2 := { appt with status := some ("in_progress"), updatedAt := some env.now }
          ⟨.success, { st with appointments := aset appointment_id appt2 st.appointments }, []⟩
        else ⟨.err 403 ("Not your appointment"), st, []⟩
  else ⟨.err 500 ("Database not available"), st, []⟩

/-- PATCH /api/counsellor/appointments/:id/complete (counsellor_complete_appointment). -/
def counsellor_complete_appointment (env : Env) (st : AppState)
    (appointment_id counsellor_id : String) : HandlerOut :=
  if env.dbAvailable = true then
    if counsellor_id = ("") then ⟨.err 400 ("counsellorId is required"), st, []⟩
    else
      match alookup appointment_id st.appointments with
      | none => ⟨.err 404 ("Not found"), st, []⟩
      | some appt =>
        if appt.counsellorId = some counsellor_id then
          let student_id := studentIdOf appt
          let student_email := pyOrS appt.studentEmail (pyOrS appt.email (""))
          let appt2 := { appt with status := some ("completed"), updatedAt := some env.now }
          let notifs :=
            if student_id ≠ ("") ∧ env.notifyRaises = false then
              [(⟨student_id, ("appointment_completed"), ("Session completed"),
                 ("Please leave quick feedback for your counsellor."),
                 appointment_id, none, env.now, false⟩ : Notification)]
            else []
          let emails :=
            if student_email ≠ ("") then
              [(⟨student_email, ("We value your feedback for today's session")⟩ : EmailMsg)]
            else []
          ⟨.success,
           { st with appointments := aset appointment_id appt2 st.appointments,
                     notifications := st.notifications ++ notifs },
           emails⟩
        else ⟨.err 403 ("Not your appointment"), st, []⟩
  else ⟨.err 500 ("Database not available"), st, []⟩

/-- DELETE /api/counsellor/appointments/:id (counsellor_delete_appointment).
An absent appointment is a successful no-op; otherwise: ownership check, free
the slot (try/except), resolve the student, email, notification (try/except),
then delete the appointment document. -/
def counsellor_delete_appointment (env : Env) (st : AppState)
    (appointment_id counsellor_id : String) : HandlerOut :=
  if env.dbAvailable = true then
    if counsellor_id = ("") then ⟨.err 400 ("counsellorId is required"), st, []⟩
    else
      match alookup appointment_id st.appointments with
      | none => ⟨.success, st, []⟩
      | some appt =>
        if appt.counsellorId = some counsellor_id then
          let date_key := pyOrS appt.appointmentDate ("")
          let time_str := pyOrS appt.appointmentTime ("")
          let owner_id := pyOrS appt.counsellorId ("")
          let slots1 :=
            if date_key ≠ ("") ∧ time_str ≠ ("") ∧ owner_id ≠ ("")
                ∧ env.slotFreeRaises = false then
              match alookup (owner_id, date_key, time_str) st.slots with
              | some slot =>
                  let slot2 := { slot with booked := some false, bookedBy := none,
                                           sessionId := none, updatedAt := some env.now }
                  aset (owner_id, date_key, time_str) slot2 st.slots
              | none => st.slots
            else st.slots
          let st1 := { st with slots := slots1 }
          let se := resolveStudent env st1 appt
          let student_id := studentIdOf appt
          let notifs :=
            if student_id ≠ ("") ∧ env.notifyRaises = false then
              [(⟨student_id, ("appointment_deleted"), ("Appointment cancelled"),
                 ("Your session on ") ++ date_key ++ (" at ") ++ time_str ++
                   (" was cancelled."),
                 appointment_id, none, env.now, false⟩ : Notification)]
            else []
          let emails :=
            if se.1 ≠ ("") then
              [(⟨se.1, ("Your session on ") ++ date_key ++ (" ") ++ time_str ++
                 (" was cancelled")⟩ : EmailMsg)]
            else []
          ⟨.success,
           { st1 with appointments := aremove appointment_id st1.appointments,
                      notifications := st1.notifications ++ notifs },
           emails⟩
        else ⟨.err 403 ("Not your appointment"), st, []⟩
  else ⟨.err 500 ("Database not available"), st, []⟩

/-- The status values counsellor_update_status accepts (after lower-casing). -/
def allowedStatuses : List String :=
  [("pending"), ("approved"), ("confirmed"), ("cancelled"), ("canceled")]

/-- The normalized display status used in the update-status email/notification. -/
def statusNice (status : String) : String :=
  if status = ("approved") ∨ status = ("confirmed") then ("confirmed")
  else if status = ("cancelled") ∨ status = ("canceled") then ("cancelled")
  else status

/-- PATCH /api/counsellor/appointments/:id/status (counsellor_update_status).
The raw status is lower-cased and validated BEFORE the counsellorId and
ownership checks, mirroring the code's order. -/
def counsellor_update_status (env : Env) (st : AppState)
    (appointment_id status_raw counsellor_id : String) : HandlerOut :=
  if env.dbAvailable = true then
    let status := pyLower status_raw
    if status ∈ allowedStatuses then
      if counsellor_id = ("") then ⟨.err 400 ("counsellorId is required"), st, []⟩
      else
        match alookup appointment_id st.appointments with
        | none => ⟨.err 404 ("Not found"), st, []⟩
        | some appt =>
          if appt.counsellorId = some counsellor_id then
            let appt2 := { appt with status := some status, updatedAt := some env.now }
            let st1 := { st with appointments := aset appointment_id appt2 st.appointments }
            let student_id := studentIdOf appt
            let se := resolveStudent env st1 appt
            let nice := statusNice status
            let date_str := pyOrS appt.appointmentDate ("")
            let time_str := pyOrS appt.appointmentTime ("")
            let notifs :=
              if student_id ≠ ("") ∧ env.notifyRaises = false then
                [(⟨student_id, ("appointment_status"), ("Appointment ") ++ nice,
                   ("Your session on ") ++ date_str ++ (" at ") ++ time_str ++
                     (" is ") ++ nice ++ ("."),
                   appointment_id, some status, env.now, false⟩ : Notification)]
              else []
            let emails :=
              if se.1 ≠ ("") then
                [(⟨se.1, ("Your session on ") ++ date_str ++ (" ") ++ time_str ++
                   (" was ") ++ nice⟩ : EmailMsg)]
              else []
            ⟨.success, { st1 with notifications := st1.notifications ++ notifs }, emails⟩
          else ⟨.err 403 ("Not your appointment"), st, []⟩
    else ⟨.err 400 ("Invalid status"), st, []⟩
  else ⟨.err 500 ("Database not available"), st, []⟩

/-- PATCH /api/counsellor/appointments/:id/reschedule (counsellor_reschedule). -/
def counsellor_reschedule (env : Env) (st : AppState)
    (appointment_id new_date new_time counsellor_id : String) : HandlerOut :=
  if env.dbAvailable = true then
    if new_date = ("") ∨ new_time = ("") then
      ⟨.err 400 ("appointmentDate and appointmentTime required"), st, []⟩
    else if counsellor_id = ("") then ⟨.err 400 ("counsellorId is required"), st, []⟩
    else
      match alookup appointment_id st.appointments with
      | none => ⟨.err 404 ("Not found"), st, []⟩
      | some appt =>
        if appt.counsellorId = some counsellor_id then
          let appt2 := { appt with appointmentDate := some new_date,
                                   appointmentTime := some new_time,
                                   updatedAt := some env.now }
          ⟨.success, { st with appointments := aset appointment_id appt2 st.appointments }, []⟩
        else ⟨.err 403 ("Not your appointment"), st, []⟩
  else ⟨.err 500 ("Database not available"), st, []⟩

/-- Response of the appointment-listing endpoint. -/
inductive ListResp
  | items (appointments : List (String × Appointment))
  | err (code : Nat) (msg : String)
deriving DecidableEq, Repr

/-- Python tuple-lexicographic order on the (date, time) sort key. -/
def pairLe (a b : String × String) : Prop :=
  a.1 < b.1 ∨ (a.1 = b.1 ∧ a.2 ≤ b.2)

instance : DecidableRel pairLe := fun a b => by
  unfold pairLe; infer_instance

/-- Sort key of a listed appointment: (date or '', time or ''). -/
def apptSortKey (p : String × Appointment) : String × String :=
  (pyOrS p.2.appointmentDate (""), pyOrS p.2.appointmentTime (""))

/-- Order on listed appointments used by the client-side sort. -/
def apptLe (a b : String × Appointment) : Prop :=
  pairLe (apptSortKey a) (apptSortKey b)

instance : DecidableRel apptLe := fun a b => by
  unfold apptLe; infer_instance

/-- GET /api/counsellor/appointments (list_counsellor_appointments).
Note the order of its guards: a missing counsellorId is a 400, but a missing
db client yields a SUCCESSFUL empty appointments response, not a 500. -/
def list_counsellor_appointments (env : Env) (st : AppState)
    (counsellor_id : String) (limit_n : Nat) : ListResp :=
  if counsellor_id = ("") then .err 400 ("counsellorId is required")
  else if env.dbAvailable = false then .items []
  else
    let items := (st.appointments.filter
      (fun p => p.2.counsellorId == some counsellor_id)).take limit_n
    .items (List.insertionSort apptLe items)

/-- POST /api/counsellor/availability/slot (counsellor_upsert_availability_slot):
merge-set of {time, booked: False, updatedAt}. -/
def counsellor_upsert_availability_slot (env : Env) (st : AppState)
    (counsellor_id date_key time : String) : HandlerOut :=
  if env.dbAvailable = true then
    if counsellor_id = ("") ∨ date_key = ("") ∨ time = ("") then
      ⟨.err 400 ("counsellorId, dateKey and time are required"), st, []⟩
    else
      let k : SlotKey := (counsellor_id, date_key, time)
      let newSlot :=
        match alookup k st.slots with
        | some s => { s with time := some time, booked := some false, updatedAt := some env.now }
        | none => (⟨some time, some false, none, none, none, some env.now⟩ : Slot)
      ⟨.success, { st with slots := aset k newSlot st.slots }, []⟩
  else ⟨.err 500 ("Database not available"), st, []⟩

/-- PATCH /api/counsellor/availability/toggle (counsellor_toggle_availability):
create the slot as {time, booked: False} if absent, then update
{active, updatedAt}.  An update on a still-missing document would raise in
Firestore and surface as the handler's 500; after the ensure step it cannot. -/
def counsellor_toggle_availability (env : Env) (st : AppState)
    (counsellor_id date_key time : String) (active : Bool) : HandlerOut :=
  if env.dbAvailable = true then
    if counsellor_id = ("") ∨ date_key = ("") ∨ time = ("") then
      ⟨.err 400 ("counsellorId, dateKey and time are required"), st, []⟩
    else
      let k : SlotKey := (counsellor_id, date_key, time)
      let slots1 :=
        match alookup k st.slots with
        | some _ => st.slots
        | none => aset k (⟨some time, some false, none, none, none, none⟩ : Slot) st.slots
      match alookup k slots1 with
      | some s =>
        let s2 := { s with active := some active, updatedAt := some env.now }
        ⟨.success, { st with slots := aset k s2 slots1 }, []⟩
      | none => ⟨.err 500 ("Internal server error"), { st with slots := slots1 }, []⟩
  else ⟨.err 500 ("Database not available"), st, []⟩

/-- A slot as returned by the availability listing (doc fields + id, with the
display time already normalized). -/
structure AvailItem where
  id : String
  time : String
  booked : Option Bool
  bookedBy : Option String
  sessionId : Option String
  active : Option Bool
  updatedAt : Option Int
deriving DecidableEq, Repr

/-- Response of the availability listing endpoint. -/
inductive AvailResp
  | slots (items : List AvailItem)
  | err (code : Nat) (msg : String)
deriving DecidableEq, Repr

/-- str.strip(): drop leading and trailing whitespace characters. -/
def pyStrip (s : String) : String :=
  ⟨((s.data.dropWhile Char.isWhitespace).reverse.dropWhile Char.isWhitespace).reverse⟩

/-- norm_time: str(t or '').strip().replace('.', ':') — the pattern is the
single character '.', so the replacement is character-wise. -/
def normTime (t : String) : String :=
  ⟨(pyStrip t).data.map (fun c => if c = ('.') then (':') else c)⟩

/-- The day's slot documents: the subcollection at (counsellorId, dateKey). -/
def availDayDocs (st : AppState) (counsellor_id date_key : String) :
    List (SlotKey × Slot) :=
  st.slots.filter (fun p => p.1.1 == counsellor_id && p.1.2.1 == date_key)

/-- Build one listed item: id is the document key (the time path segment), and
the display time is norm_time(data.get('time') or id). -/
def availItem (p : SlotKey × Slot) : AvailItem :=
  ⟨p.1.2.2, normTime (pyOrS p.2.time p.1.2.2),
   p.2.booked, p.2.bookedBy, p.2.sessionId, p.2.active, p.2.updatedAt⟩

/-- The sort order of the availability listing: ascending by the (already
normalized) time string. -/
def availTimeLe (a b : AvailItem) : Prop := a.time ≤ b.time

instance : DecidableRel availTimeLe := fun a b => by
  unfold availTimeLe; infer_instance

instance : IsTotal AvailItem availTimeLe :=
  ⟨fun a b => le_total a.time b.time⟩

instance : IsTrans AvailItem availTimeLe :=
  ⟨fun _ _ _ h1 h2 => le_trans h1 h2⟩

/-- GET /api/counsellor/availability (counsellor_get_availability). -/
def counsellor_get_availability (env : Env) (st : AppState)
    (counsellor_id date_key : String) : AvailResp :=
  if env.dbAvailable = true then
    if counsellor_id = ("") ∨ date_key = ("") then
      .err 400 ("counsellorId and dateKey are required")
    else
      .slots (List.insertionSort availTimeLe
        ((availDayDocs st counsellor_id date_key).map availItem))
  else .err 500 ("Database not available")

/-- Seconds per day: timestamps are naive-UTC seconds. -/
def dayLen : Int := 86400

/-- `dt.date()`: the calendar-day index of an instant (stands for the date's
isoformat string, which it determines injectively and monotonically). -/
def dateOf (t : Int) : Int := Int.fdiv t dayLen

/-- The accumulator of the insights daily aggregation: the `daily` sum map,
the `counts` map, and `points_before_fallback` (incremented only while
processing the primary source). -/
structure TrendAcc where
  daily : List (Int × ℚ)
  counts : List (Int × Nat)
  points : Nat
deriving DecidableEq, Repr

/-- add_point: skip when the timestamp is unresolvable, before the window
start, or the score not float()-parseable; otherwise add to the day's bucket.
`countIt` is true only for the primary source, where the code detects whether
a point was added and then increments points_before_fallback. -/
def addPoint (start : Int) (dt : Option Int) (score : Option ℚ)
    (acc : TrendAcc) (countIt : Bool) : TrendAcc :=
  match dt, score with
  | some t, some q =>
    if t < start then acc
    else
      { daily := aset (dateOf t) ((alookup (dateOf t) acc.daily).getD 0 + q) acc.daily,
        counts := aset (dateOf t) ((alookup (dateOf t) acc.counts).getD 0 + 1) acc.counts,
        points := if countIt then acc.points + 1 else acc.points }
  | _, _ => acc

/-- ts = d.get('recordedAt') or d.get('createdAt'). -/
def tsOfMoodScore (d : MoodScoreDoc) : Option Int := d.recordedAt <|> d.createdAt

/-- One primary-source (mood_scores) iteration. -/
def primaryStep (start : Int) (acc : TrendAcc) (d : MoodScoreDoc) : TrendAcc :=
  addPoint start (tsOfMoodScore d) (d.score.parse) acc true

/-- The primary-source loop, starting from empty maps. -/
def primaryFold (start : Int) (docs : List MoodScoreDoc) : TrendAcc :=
  docs.foldl (primaryStep start) ⟨[], [], 0⟩

/-- ts = d.get('timestamp') or d.get('createdAt') (legacy moods). -/
def tsOfLegacy (d : LegacyMoodDoc) : Option Int := d.timestamp <|> d.createdAt

/-- One legacy-moods iteration: score = d.get('score', d.get('mood_score')). -/
def legacyMoodStep (start : Int) (acc : TrendAcc) (d : LegacyMoodDoc) : TrendAcc :=
  addPoint start (tsOfLegacy d) ((d.score.orField d.mood_score).parse) acc false

/-- The sentiment normalization inside the chat fallback: a score within
[-1, 1] is mapped by (fs + 1) / 2 * 100; anything else is assumed to be on the
0-100 scale already and used unchanged. -/
def normalizeSentiment (fs : ℚ) : ℚ :=
  if -1 ≤ fs ∧ fs ≤ 1 then (fs + 1) / 2 * 100 else fs

/-- ts = d.get('timestamp') or d.get('createdAt') (chat conversations). -/
def tsOfChat (d : ChatDoc) : Option Int := d.timestamp <|> d.createdAt

/-- One chat-conversations iteration: the point value is the normalized
sentiment score (or skipped when the score does not parse). -/
def chatStep (start : Int) (acc : TrendAcc) (d : ChatDoc) : TrendAcc :=
  addPoint start (tsOfChat d) ((d.sentimentScore.parse).map normalizeSentiment) acc false

/-- mood_scores where('userId', '==', student_id). -/
def primaryDocs (st : AppState) (sid : String) : List MoodScoreDoc :=
  st.mood_scores.filter (fun d => d.userId == some sid)

/-- The legacy moods stream: the code queries once per user-id field shape
('user_id', then 'userId'), so a document matching both is processed twice. -/
def legacyMoodDocs (st : AppState) (sid : String) : List LegacyMoodDoc :=
  (st.moods.filter (fun d => d.user_id == some sid)) ++
  (st.moods.filter (fun d => d.userId == some sid))

/-- chat_conversations where('user_id', '==', student_id). -/
def chatDocs (st : AppState) (sid : String) : List ChatDoc :=
  st.chat_conversations.filter (fun d => d.user_id == some sid)

/-- days_param = max(7, min(30, int(days))) with 30 on a missing or
unparseable query parameter. -/
def clampDays (raw : Option Int) : Int := max 7 (min 30 (raw.getD 30))

/-- One moodTrend entry: a day and its average (None when no data). -/
structure TrendPoint where
  date : Int
  avg : Option ℚ
deriving DecidableEq, Repr

/-- round(x, 2) (models Python's 2-decimal rounding). -/
def round2 (q : ℚ) : ℚ := ((round (q * 100) : ℤ) : ℚ) / 100

/-- One output entry of the trend loop, for offset i days before now:
`if day in daily and counts.get(day, 0) > 0` average, else a None average. -/
def trendEntry (now : Int) (acc : TrendAcc) (i : Nat) : TrendPoint :=
  if (alookup (dateOf (now - (i : Int) * dayLen)) acc.daily).isSome
      ∧ 0 < (alookup (dateOf (now - (i : Int) * dayLen)) acc.counts).getD 0 then
    ⟨dateOf (now - (i : Int) * dayLen),
     some (round2 (((alookup (dateOf (now - (i : Int) * dayLen)) acc.daily).getD 0) /
       (((alookup (dateOf (now - (i : Int) * dayLen)) acc.counts).getD 0 : Nat) : ℚ)))⟩
  else ⟨dateOf (now - (i : Int) * dayLen), none⟩

/-- The output loop `for i in range(days_param - 1, -1, -1)`: one entry per
day of the window, oldest first. -/
def buildTrend (now : Int) (n : Nat) (acc : TrendAcc) : List TrendPoint :=
  ((List.range n).reverse).map (trendEntry now acc)

/-- The observable core of the insights mood aggregation: the trend, whether
the legacy sources were consulted, and the final accumulator. -/
structure InsightsCore where
  trend : List TrendPoint
  legacyConsulted : Bool
  acc : TrendAcc
deriving DecidableEq, Repr

/-- The mood-trend computation of counsellor_appointment_insights: primary
source first; the legacy sources (moods, then chat_conversations) are
consulted only `if fallback and points_before_fallback == 0`. -/
def insightsMoodCore (st : AppState) (sid : String) (now : Int)
    (daysRaw : Option Int) (fallback : Bool) : InsightsCore :=
  let days_param := clampDays daysRaw
  let start := now - days_param * dayLen
  let acc0 := primaryFold start (primaryDocs st sid)
  let consult := fallback && (acc0.points == 0)
  let acc1 := if consult = true then
      (legacyMoodDocs st sid).foldl (legacyMoodStep start) acc0
    else acc0
  let acc2 := if consult = true then
      (chatDocs st sid).foldl (chatStep start) acc1
    else acc1
  ⟨buildTrend now days_param.toNat acc2, consult, acc2⟩

/-- The latest PHQ-9/GAD-7 result shape returned by the insights endpoint. -/
structure AssessResult where
  score : Option ℚ
  severity : String
deriving DecidableEq, Repr

/-- Accumulator of the latest-assessment selection. -/
structure LatestAcc where
  phq9 : Option AssessResult
  phq9Ts : Option Int
  gad7 : Option AssessResult
  gad7Ts : Option Int
deriving DecidableEq, Repr

/-- ts = a.get('timestamp') or a.get('createdAt') (assessments). -/
def tsOfAssessment (a : AssessmentDoc) : Option Int := a.timestamp <|> a.createdAt

/-- `prev is None or (dt and prev and dt > prev) or (dt and prev is None)`. -/
def latestUpdate (prevTs : Option Int) (dt : Option Int) : Bool :=
  match prevTs, dt with
  | none, _ => true
  | some p, some d => decide (p < d)
  | some _, none => false

/-- One assessments iteration: keep the record with the latest resolvable
timestamp per type. -/
def assessStep (acc : LatestAcc) (a : AssessmentDoc) : LatestAcc :=
  let t := pyUpper (pyOrS a.atype (""))
  if t = ("PHQ-9") then
    if latestUpdate acc.phq9Ts (tsOfAssessment a) then
      { acc with phq9 := some ⟨a.score, pyOrS a.severity ("")⟩,
                 phq9Ts := tsOfAssessment a }
    else acc
  else if t = ("GAD-7") then
    if latestUpdate acc.gad7Ts (tsOfAssessment a) then
      { acc with gad7 := some ⟨a.score, pyOrS a.severity ("")⟩,
                 gad7Ts := tsOfAssessment a }
    else acc
  else acc

/-- The assessments stream: one query per user-id field shape. -/
def assessmentDocs (st : AppState) (sid : String) : List AssessmentDoc :=
  (st.assessments.filter (fun a => a.user_id == some sid)) ++
  (st.assessments.filter (fun a => a.userId == some sid))

/-- The latest PHQ-9 and GAD-7 selection. -/
def latestAssessments (st : AppState) (sid : String) : LatestAcc :=
  (assessmentDocs st sid).foldl assessStep ⟨none, none, none, none⟩

/-- Response of the insights endpoint. -/
inductive InsightsResp
  | ok (moodTrend : List TrendPoint) (phq9 gad7 : Option AssessResult)
  | err (code : Nat) (msg : String)
deriving DecidableEq, Repr

/-- Parsing of the `fallback` query parameter. -/
def parseFallback (s : Option String) : Bool :=
  [("1"), ("true"), ("yes")].contains (pyLower (s.getD ("false")))

/-- GET /api/counsellor/appointments/:id/insights
(counsellor_appointment_insights).  Note: the student id here is
appt.get('studentId') alone, without the userId fallback. -/
def counsellor_appointment_insights (env : Env) (st : AppState)
    (appointment_id counsellor_id : String) (daysRaw : Option Int)
    (fallback : Bool) : InsightsResp :=
  if env.dbAvailable = true then
    if counsellor_id = ("") then .err 400 ("counsellorId is required")
    else
      match alookup appointment_id st.appointments with
      | none => .err 404 ("Appointment not found")
      | some appt =>
        if appt.counsellorId = some counsellor_id then
          let sid := pyOrS appt.studentId ("")
          if sid = ("") then .err 400 ("Appointment missing studentId")
          else
            let core := insightsMoodCore st sid env.now daysRaw fallback
            let latest := latestAssessments st sid
            .ok core.trend latest.phq9 latest.gad7
        else .err 403 ("Forbidden")
  else .err 500 ("Database not available")

/-! ## Concrete fixtures for the closed witness/counterexample theorems -/

/-- A store-available environment with clock 0 and no raising side effects. -/
def envT : Env := ⟨true, 0, false, false, false⟩

/-- An environment whose document-store client is not initialized. -/
def envNoDb : Env := ⟨false, 0, false, false, false⟩

/-- A sample appointment owned by counsellor "C1". -/
def apptEx : Appointment :=
  ⟨some ("C1"), some ("s1"), none, some ("stu@example.com"), none, some ("Stu"),
   some ("Coun"), some ("2026-01-02"), some ("10:00"), some ("pending"), some 0⟩

/-- A sample booked slot at (C1, 2026-01-02, 10:00). -/
def slotEx : Slot :=
  ⟨some ("10:00"), some true, some ("s1"), some ("sess1"), some true, some 0⟩

/-- A sample store holding the appointment and its slot. -/
def stEx : AppState :=
  ⟨[(("a1"), apptEx)], [((("C1"), ("2026-01-02"), ("10:00")), slotEx)],
   [], [], [], [], [], []⟩

/-! ## C1: non-owning counsellor is rejected with Forbidden, no state change -/

/-- C1 (amended): provided the request passes its field validation (a
non-empty counsellorId; for UpdateStatus a valid status; for Reschedule a date
and a time), every transition operation on an existing appointment whose
stored counsellorId differs from the supplied one returns Forbidden (403) and
leaves the whole store (appointment, slots, notifications) unchanged, sending
no email. -/
theorem transition_forbidden_no_change (env : Env) (st : AppState)
    (aid cid sraw d2 t2 : String) (appt : Appointment)
    (hdb : env.dbAvailable = true) (hc : cid ≠ (""))
    (ha : alookup aid st.appointments = some appt)
    (hne : appt.counsellorId ≠ some cid) :
    counsellor_start_appointment env st aid cid
      = ⟨.err 403 ("Not your appointment"), st, []⟩
    ∧ counsellor_complete_appointment env st aid cid
      = ⟨.err 403 ("Not your appointment"), st, []⟩
    ∧ counsellor_delete_appointment env st aid cid
      = ⟨.err 403 ("Not your appointment"), st, []⟩
    ∧ (pyLower sraw ∈ allowedStatuses →
        counsellor_update_status env st aid sraw cid
          = ⟨.err 403 ("Not your appointment"), st, []⟩)
    ∧ (d2 ≠ ("") → t2 ≠ ("") →
        counsellor_reschedule env st aid d2 t2 cid
          = ⟨.err 403 ("Not your appointment"), st, []⟩) := by
  refine ⟨?_, ?_, ?_, fun hs => ?_, fun hd ht => ?_⟩
  · simp [counsellor_start_appointment, hdb, hc, ha, hne]
  · simp [counsellor_complete_appointment, hdb, hc, ha, hne]
  · simp [counsellor_delete_appointment, hdb, hc, ha, hne]
  · simp [counsellor_update_status, hdb, hs, hc, ha, hne]
  · simp [counsellor_reschedule, hdb, hd, ht, hc, ha, hne]

/-- Witness for C1's theorem at a concrete store: counsellor "C2" hits the
appointment owned by "C1". -/
theorem transition_forbidden_no_change_witness :
    counsellor_start_appointment envT stEx ("a1") ("C2")
      = ⟨.err 403 ("Not your appointment"), stEx, []⟩ :=
  (transition_forbidden_no_change envT stEx ("a1") ("C2") ("approved")
    ("2026-01-03") ("11:00") apptEx rfl (by decide) (by decide) (by decide)).1

/-- C1 counterexample: on the existing appointment owned by "C1", an
UpdateStatus request from the non-owning "C2" carrying an invalid status is
rejected 400 (Invalid status), not 403 — the status validation precedes the
ownership check. -/
theorem transition_forbidden_cex :
    alookup ("a1") stEx.appointments = some apptEx
    ∧ apptEx.counsellorId = some ("C1")
    ∧ counsellor_update_status envT stEx ("a1") ("bogus") ("C2")
        = ⟨.err 400 ("Invalid status"), stEx, []⟩
    ∧ ApiResp.err 400 ("Invalid status") ≠ ApiResp.err 403 ("Not your appointment") := by
  refine ⟨by decide, by decide, by rfl, by decide⟩

/-! ## C2: delete on a missing id is a successful no-op; start/complete 404 -/

/-- C2: with the store available and a counsellorId supplied, Delete/Cancel on
an absent appointment id returns success with the store untouched, while
Start and Complete on the same id return NotFound (404). -/
theorem missing_appointment_behavior (env : Env) (st : AppState) (aid cid : String)
    (hdb : env.dbAvailable = true) (hc : cid ≠ (""))
    (hmiss : alookup aid st.appointments = none) :
    counsellor_delete_appointment env st aid cid = ⟨.success, st, []⟩
    ∧ counsellor_start_appointment env st aid cid = ⟨.err 404 ("Not found"), st, []⟩
    ∧ counsellor_complete_appointment env st aid cid = ⟨.err 404 ("Not found"), st, []⟩ := by
  refine ⟨?_, ?_, ?_⟩
  · simp [counsellor_delete_appointment, hdb, hc, hmiss]
  · simp [counsellor_start_appointment, hdb, hc, hmiss]
  · simp [counsellor_complete_appointment, hdb, hc, hmiss]

/-- Witness for C2's theorem: id "zz" is absent from the sample store. -/
theorem missing_appointment_behavior_witness :
    counsellor_delete_appointment envT stEx ("zz") ("C1") = ⟨.success, stEx, []⟩
    ∧ counsellor_start_appointment envT stEx ("zz") ("C1")
        = ⟨.err 404 ("Not found"), stEx, []⟩
    ∧ counsellor_complete_appointment envT stEx ("zz") ("C1")
        = ⟨.err 404 ("Not found"), stEx, []⟩ :=
  missing_appointment_behavior envT stEx ("zz") ("C1") rfl (by decide) (by decide)

/-! ## C3: behavior when the document store client is not initialized -/

/-- C3 (amended): when db is None every transition operation fails 500
(Database not available), but the appointment-listing operation instead
returns a SUCCESSFUL response with an empty appointments list. -/
theorem db_unavailable_behavior (env : Env) (st : AppState)
    (aid cid sraw d2 t2 : String) (lim : Nat)
    (hdb : env.dbAvailable = false) :
    counsellor_start_appointment env st aid cid
      = ⟨.err 500 ("Database not available"), st, []⟩
    ∧ counsellor_complete_appointment env st aid cid
      = ⟨.err 500 ("Database not available"), st, []⟩
    ∧ counsellor_delete_appointment env st aid cid
      = ⟨.err 500 ("Database not available"), st, []⟩
    ∧ counsellor_update_status env st aid sraw cid
      = ⟨.err 500 ("Database not available"), st, []⟩
    ∧ counsellor_reschedule env st aid d2 t2 cid
      = ⟨.err 500 ("Database not available"), st, []⟩
    ∧ (cid ≠ ("") → list_counsellor_appointments env st cid lim = .items []) := by
  refine ⟨?_, ?_, ?_, ?_, ?_, fun hc => ?_⟩
  · simp [counsellor_start_appointment, hdb]
  · simp [counsellor_complete_appointment, hdb]
  · simp [counsellor_delete_appointment, hdb]
  · simp [counsellor_update_status, hdb]
  · simp [counsellor_reschedule, hdb]
  · simp [list_counsellor_appointments, hdb, hc]

/-- Witness for C3's amended theorem. -/
theorem db_unavailable_behavior_witness :
    counsellor_start_appointment envNoDb stEx ("a1") ("C1")
      = ⟨.err 500 ("Database not available"), stEx, []⟩ :=
  (db_unavailable_behavior envNoDb stEx ("a1") ("C1") ("approved")
    ("2026-01-03") ("11:00") 100 rfl).1

/-- C3 counterexample: with db uninitialized, the listing endpoint answers
with a successful empty list, not the 500 the claim requires of every
endpoint. -/
theorem db_unavailable_cex :
    list_counsellor_appointments envNoDb stEx ("C1") 100 = .items []
    ∧ ListResp.items [] ≠ ListResp.err 500 ("Database not available") := by
  decide

/-! ## C4: status normalization in UpdateStatus -/

/-- C4: UpdateStatus lower-cases the supplied status and accepts it only when
the result lies in allowedStatuses = {pending, approved, confirmed, cancelled,
canceled}, failing 400 (Invalid status) otherwise; an accepted status is
stored lower-cased (so input "Approved" stores "approved"), and for a status
lower-casing to "approved" the notification written contains the normalized
display status "confirmed" in its body and records status "approved". -/
theorem update_status_normalization (env : Env) (st : AppState)
    (aid cid sraw : String) (appt : Appointment)
    (hdb : env.dbAvailable = true) (hc : cid ≠ (""))
    (ha : alookup aid st.appointments = some appt)
    (hown : appt.counsellorId = some cid) :
    (pyLower sraw ∉ allowedStatuses →
      counsellor_update_status env st aid sraw cid
        = ⟨.err 400 ("Invalid status"), st, []⟩)
    ∧ (pyLower sraw ∈ allowedStatuses →
      alookup aid (counsellor_update_status env st aid sraw cid).state.appointments
        = some ({ appt with status := some (pyLower sraw), updatedAt := some env.now }))
    ∧ (pyLower sraw = ("approved") → studentIdOf appt ≠ ("") →
       env.notifyRaises = false →
      ∃ n : Notification,
        (counsellor_update_status env st aid sraw cid).state.notifications
          = st.notifications ++ [n]
        ∧ n.status = some ("approved")
        ∧ ∃ a b : String, n.body = a ++ ("confirmed") ++ b) := by
  refine ⟨fun hno => ?_, fun hin => ?_, fun hap hsid hnr => ?_⟩
  · simp [counsellor_update_status, hdb, hno]
  · simp [counsellor_update_status, hdb, hin, hc, ha, hown, alookup_aset_self]
  · have hin : pyLower sraw ∈ allowedStatuses := by rw [hap]; decide
    have hmem : ("approved") ∈ allowedStatuses := by decide
    refine ⟨⟨studentIdOf appt, ("appointment_status"),
      ("Appointment ") ++ ("confirmed"),
      ("Your session on ") ++ (pyOrS appt.appointmentDate ("")) ++ (" at ") ++
        (pyOrS appt.appointmentTime ("")) ++ (" is ") ++ ("confirmed") ++ ("."),
      aid, some ("approved"), env.now, false⟩, ?_, rfl, ?_⟩
    · simp [counsellor_update_status, hdb, hin, hmem, hc, ha, hown, hsid, hnr, hap, statusNice]
    · exact ⟨("Your session on ") ++ (pyOrS appt.appointmentDate ("")) ++ (" at ") ++
        (pyOrS appt.appointmentTime ("")) ++ (" is "), ("."),
        by simp [String.append_assoc]⟩

/-- Witness for C4's theorem: input "Approved" on the sample store. -/
theorem update_status_normalization_witness :
    (∃ n : Notification,
      (counsellor_update_status envT stEx ("a1") ("Approved") ("C1")).state.notifications
        = stEx.notifications ++ [n]
      ∧ n.status = some ("approved")
      ∧ ∃ a b : String, n.body = a ++ ("confirmed") ++ b)
    ∧ alookup ("a1")
        (counsellor_update_status envT stEx ("a1") ("Approved") ("C1")).state.appointments
        = some ({ apptEx with status := some (pyLower ("Approved")),
                              updatedAt := some (0 : Int) }) :=
  ⟨(update_status_normalization envT stEx ("a1") ("C1") ("Approved") apptEx rfl
      (by decide) (by decide) (by decide)).2.2 (by decide) (by decide) rfl,
   (update_status_normalization envT stEx ("a1") ("C1") ("Approved") apptEx rfl
      (by decide) (by decide) (by decide)).2.1 (by decide)⟩

/-! ## C5: delete frees the slot; the slot-free step is best-effort -/

/-- C5: a successful Delete on an appointment whose availability slot document
at (counsellorId, appointmentDate, appointmentTime) exists updates that slot
to booked=false with bookedBy and sessionId cleared (and a fresh updatedAt),
and deletes the appointment; and when the slot-free step raises, the failure
is swallowed: the delete still returns success, the slots are untouched, and
the appointment is still removed. -/
theorem delete_frees_slot (env : Env) (st : AppState)
    (aid cid d t : String) (appt : Appointment) (slot : Slot)
    (hdb : env.dbAvailable = true) (hc : cid ≠ (""))
    (ha : alookup aid st.appointments = some appt)
    (hown : appt.counsellorId = some cid)
    (hd : appt.appointmentDate = some d) (hdne : d ≠ (""))
    (ht : appt.appointmentTime = some t) (htne : t ≠ ("")) :
    (env.slotFreeRaises = false →
      alookup (cid, d, t) st.slots = some slot →
      (counsellor_delete_appointment env st aid cid).resp = .success
      ∧ alookup (cid, d, t) (counsellor_delete_appointment env st aid cid).state.slots
          = some ({ slot with booked := some false, bookedBy := none,
                              sessionId := none, updatedAt := some env.now })
      ∧ alookup aid
          (counsellor_delete_appointment env st aid cid).state.appointments = none)
    ∧ (env.slotFreeRaises = true →
      (counsellor_delete_appointment env st aid cid).resp = .success
      ∧ (counsellor_delete_appointment env st aid cid).state.slots = st.slots
      ∧ alookup aid
          (counsellor_delete_appointment env st aid cid).state.appointments = none) := by
  constructor
  · intro hfr hslot
    refine ⟨?_, ?_, ?_⟩ <;>
      simp [counsellor_delete_appointment, hdb, hc, ha, hown, hd, ht, pyOrS,
            hdne, htne, hfr, hslot, alookup_aset_self, alookup_aremove_self]
  · intro hfr
    refine ⟨?_, ?_, ?_⟩ <;>
      simp [counsellor_delete_appointment, hdb, hc, ha, hown, hd, ht, pyOrS,
            hdne, htne, hfr, alookup_aset_self, alookup_aremove_self]

/-- Witness for C5's theorem on the sample store (booked slot freed, record
removed). -/
theorem delete_frees_slot_witness :
    (counsellor_delete_appointment envT stEx ("a1") ("C1")).resp = .success
    ∧ alookup (("C1"), ("2026-01-02"), ("10:00"))
        (counsellor_delete_appointment envT stEx ("a1") ("C1")).state.slots
        = some ({ slotEx with booked := some false, bookedBy := none,
                              sessionId := none, updatedAt := some (0 : Int) })
    ∧ alookup ("a1")
        (counsellor_delete_appointment envT stEx ("a1") ("C1")).state.appointments = none :=
  (delete_frees_slot envT stEx ("a1") ("C1") ("2026-01-02") ("10:00") apptEx slotEx
    rfl (by decide) (by decide) (by decide) (by decide) (by decide) (by decide)
    (by decide)).1 rfl (by decide)

/-! ## C10: ToggleActive frame condition on booking fields -/

/-- C10: ToggleActive on an EXISTING slot changes only the active and
updatedAt fields — booked, bookedBy, sessionId (and time) keep their previous
values — while on an absent slot it creates the document with booked=false
(and no booking data) before setting active. -/
theorem toggle_active_frame (env : Env) (st : AppState)
    (cid dk tm : String) (active : Bool)
    (hdb : env.dbAvailable = true) (hc : cid ≠ ("")) (hd : dk ≠ ("")) (ht : tm ≠ ("")) :
    (∀ s : Slot, alookup (cid, dk, tm) st.slots = some s →
      (counsellor_toggle_availability env st cid dk tm active).resp = .success
      ∧ alookup (cid, dk, tm)
          (counsellor_toggle_availability env st cid dk tm active).state.slots
          = some ({ s with active := some active, updatedAt := some env.now }))
    ∧ (alookup (cid, dk, tm) st.slots = none →
      (counsellor_toggle_availability env st cid dk tm active).resp = .success
      ∧ alookup (cid, dk, tm)
          (counsellor_toggle_availability env st cid dk tm active).state.slots
          = some (⟨some tm, some false, none, none, some active, some env.now⟩ : Slot)) := by
  constructor
  · intro s hs
    refine ⟨?_, ?_⟩ <;>
      simp [counsellor_toggle_availability, hdb, hc, hd, ht, hs, alookup_aset_self]
  · intro hmiss
    refine ⟨?_, ?_⟩ <;>
      simp [counsellor_toggle_availability, hdb, hc, hd, ht, hmiss, alookup_aset_self]

/-- Witness for C10's theorem: toggling the existing booked sample slot keeps
its booking fields. -/
theorem toggle_active_frame_witness :
    (counsellor_toggle_availability envT stEx ("C1") ("2026-01-02") ("10:00") false).resp
      = .success
    ∧ alookup (("C1"), ("2026-01-02"), ("10:00"))
        (counsellor_toggle_availability envT stEx ("C1") ("2026-01-02") ("10:00") false).state.slots
        = some ({ slotEx with active := some false, updatedAt := some (0 : Int) }) :=
  (toggle_active_frame envT stEx ("C1") ("2026-01-02") ("10:00") false rfl
    (by decide) (by decide) (by decide)).1 slotEx (by decide)

/-! ## C6: fallback gating of the legacy insight sources -/

/-- Whether one primary mood_scores document yields an in-window point: a
resolvable timestamp not before the window start and a numeric score (this is
exactly the condition under which add_point adds, i.e. under which the code's
`counts != before` detection fires). -/
def contributesPrimary (start : Int) (d : MoodScoreDoc) : Bool :=
  match tsOfMoodScore d, d.score.parse with
  | some t, some _ => decide (¬ t < start)
  | _, _ => false

theorem primaryStep_points (start : Int) (acc : TrendAcc) (d : MoodScoreDoc) :
    (primaryStep start acc d).points
      = acc.points + (if contributesPrimary start d then 1 else 0) := by
  unfold primaryStep addPoint contributesPrimary
  cases htd : tsOfMoodScore d with
  | none => simp
  | some t =>
    cases hsc : d.score.parse with
    | none => simp
    | some q =>
      by_cases hlt : t < start
      · simp [hlt]
      · simp [hlt]

theorem foldl_primaryStep_points (start : Int) (docs : List MoodScoreDoc)
    (acc : TrendAcc) :
    (docs.foldl (primaryStep start) acc).points
      = acc.points + docs.countP (contributesPrimary start) := by
  induction docs generalizing acc with
  | nil => simp
  | cons d rest ih =>
    rw [List.foldl_cons, ih, List.countP_cons, primaryStep_points]
    by_cases hcon : contributesPrimary start d
    · simp [hcon]; omega
    · simp [hcon]

/-- C6: the legacy fallback sources (moods, chat_conversations) are consulted
exactly when fallback was requested AND zero primary in-window points were
collected; in particular, as soon as one primary mood_scores sample for the
student has a resolvable timestamp inside the trailing window and a numeric
score, the legacy sources are never read — even with fallback=true. -/
theorem insights_fallback_gating (st : AppState) (sid : String) (now : Int)
    (daysRaw : Option Int) (fallback : Bool) :
    ((insightsMoodCore st sid now daysRaw fallback).legacyConsulted = true
      ↔ (fallback = true
         ∧ (primaryDocs st sid).countP
             (contributesPrimary (now - clampDays daysRaw * dayLen)) = 0))
    ∧ (∀ d ∈ primaryDocs st sid, ∀ t : Int,
        tsOfMoodScore d = some t → now - clampDays daysRaw * dayLen ≤ t →
        (NumField.parse d.score).isSome = true →
        (insightsMoodCore st sid now daysRaw fallback).legacyConsulted = false) := by
  have hpts : (insightsMoodCore st sid now daysRaw fallback).legacyConsulted
      = (fallback && ((primaryDocs st sid).countP
          (contributesPrimary (now - clampDays daysRaw * dayLen)) == 0)) := by
    simp [insightsMoodCore, primaryFold, foldl_primaryStep_points]
  constructor
  · rw [hpts]; simp
  · intro d hd t htd hwin hsc
    have hcon : contributesPrimary (now - clampDays daysRaw * dayLen) d = true := by
      unfold contributesPrimary
      rw [htd]
      cases hq : d.score.parse with
      | none => rw [hq] at hsc; simp at hsc
      | some q => simp; omega
    have hne : (primaryDocs st sid).countP
        (contributesPrimary (now - clampDays daysRaw * dayLen)) ≠ 0 :=
      Nat.pos_iff_ne_zero.mp (List.countP_pos_iff.mpr ⟨d, hd, hcon⟩)
    rw [hpts]
    simp [hne]

/-- A sample primary mood document for student "s1", in-window at instant 0. -/
def moodEx : MoodScoreDoc := ⟨some ("s1"), some 0, none, .num 50⟩

/-- A store holding the primary sample plus legacy/chat documents that the
fallback would otherwise pick up. -/
def stMood : AppState :=
  ⟨[], [], [], [], [moodEx],
   [⟨some ("s1"), none, some 0, none, .num 4, .absent⟩],
   [⟨some ("s1"), some 0, none, .num (1/2)⟩], []⟩

/-- Witness for C6's theorem: one in-window primary sample suppresses the
legacy sources even though fallback=true. -/
theorem insights_fallback_gating_witness :
    (insightsMoodCore stMood ("s1") 0 none true).legacyConsulted = false :=
  (insights_fallback_gating stMood ("s1") 0 none true).2 moodEx (by decide) 0
    (by decide) (by decide) (by decide)

/-! ## C7: window clamping and null averages -/

theorem trendEntry_date (now : Int) (acc : TrendAcc) (i : Nat) :
    (trendEntry now acc i).date = dateOf (now - (i : Int) * dayLen) := by
  unfold trendEntry; split <;> rfl

theorem trendEntry_avg_none (now : Int) (acc : TrendAcc) (i : Nat)
    (h : (alookup ((trendEntry now acc i).date) acc.counts).getD 0 = 0) :
    (trendEntry now acc i).avg = none := by
  rw [trendEntry_date] at h
  have hnc : ¬ ((alookup (dateOf (now - (i : Int) * dayLen)) acc.daily).isSome
      ∧ 0 < (alookup (dateOf (now - (i : Int) * dayLen)) acc.counts).getD 0) := by
    rintro ⟨-, hpos⟩
    omega
  unfold trendEntry
  rw [if_neg hnc]

/-- C7: the days parameter is clamped into [7, 30] (days=3 ↦ 7, days=90 ↦ 30,
absent/unparseable ↦ 30); the moodTrend has exactly one entry per day of the
clamped window (the offsets being days-1, ..., 1, 0 days before now); and
every day with zero collected samples carries avg = none rather than 0. -/
theorem insights_clamp_and_null_days (st : AppState) (sid : String) (now : Int)
    (daysRaw : Option Int) (fallback : Bool) :
    clampDays (some 3) = 7 ∧ clampDays (some 90) = 30 ∧ clampDays none = 30
    ∧ 7 ≤ clampDays daysRaw ∧ clampDays daysRaw ≤ 30
    ∧ (insightsMoodCore st sid now daysRaw fallback).trend.length
        = (clampDays daysRaw).toNat
    ∧ ((insightsMoodCore st sid now daysRaw fallback).trend.map TrendPoint.date
        = ((List.range (clampDays daysRaw).toNat).reverse).map
            (fun i : Nat => dateOf (now - (i : Int) * dayLen)))
    ∧ (∀ p ∈ (insightsMoodCore st sid now daysRaw fallback).trend,
        (alookup p.date (insightsMoodCore st sid now daysRaw fallback).acc.counts).getD 0 = 0
        → p.avg = none) := by
  have htr : (insightsMoodCore st sid now daysRaw fallback).trend
      = buildTrend now (clampDays daysRaw).toNat
          (insightsMoodCore st sid now daysRaw fallback).acc := rfl
  refine ⟨by decide, by decide, by decide, le_max_left 7 _,
    max_le (by norm_num) (min_le_left 30 _), ?_, ?_, ?_⟩
  · rw [htr]; simp [buildTrend]
  · rw [htr]
    unfold buildTrend
    rw [List.map_map]
    exact List.map_congr_left (fun i _ => by simp [Function.comp, trendEntry_date])
  · intro p hp hcnt
    rw [htr] at hp
    unfold buildTrend at hp
    rw [List.mem_map] at hp
    obtain ⟨i, hi, hpi⟩ := hp
    rw [← hpi] at hcnt ⊢
    exact trendEntry_avg_none now _ i hcnt

/-- Witness for C7's theorem: with no data, the day one day before now is in
the 30-entry trend and carries a null average. -/
theorem insights_clamp_witness :
    (insightsMoodCore stEx ("s1") 0 none false).trend.length = 30
    ∧ TrendPoint.avg ⟨-1, none⟩ = none :=
  ⟨(insights_clamp_and_null_days stEx ("s1") 0 none false).2.2.2.2.2.1,
   (insights_clamp_and_null_days stEx ("s1") 0 none false).2.2.2.2.2.2.2
     ⟨-1, none⟩ (by decide) (by decide)⟩

/-! ## C8: availability listing is sorted by normalized time -/

/-- C8: the availability listing succeeds and returns the day's slots sorted
ascending by the normalized time string (Lean's String order, like Python's,
compares code points lexicographically), as a permutation of the normalized
day's slot documents; normalization rewrites '.' to ':' ("9.30" ↦ "9:30") and
falls back to the document key when the time field is blank. -/
theorem get_availability_sorted (env : Env) (st : AppState) (cid dk : String)
    (hdb : env.dbAvailable = true) (hc : cid ≠ ("")) (hd : dk ≠ ("")) :
    (∃ items, counsellor_get_availability env st cid dk = .slots items
      ∧ List.Sorted availTimeLe items
      ∧ items.Perm ((availDayDocs st cid dk).map availItem))
    ∧ normTime ("9.30") = ("9:30")
    ∧ (∀ (k : SlotKey) (s : Slot), s.time = none ∨ s.time = some ("") →
        (availItem (k, s)).time = normTime k.2.2) := by
  refine ⟨?_, by decide, ?_⟩
  · refine ⟨List.insertionSort availTimeLe ((availDayDocs st cid dk).map availItem),
      ?_, ?_, ?_⟩
    · simp [counsellor_get_availability, hdb, hc, hd]
    · exact List.sorted_insertionSort availTimeLe _
    · exact List.perm_insertionSort availTimeLe _
  · rintro k s (h | h) <;> simp [availItem, pyOrS, h]

/-- Witness for C8's theorem on the sample store. -/
theorem get_availability_sorted_witness :
    ∃ items, counsellor_get_availability envT stEx ("C1") ("2026-01-02") = .slots items
      ∧ List.Sorted availTimeLe items
      ∧ items.Perm ((availDayDocs stEx ("C1") ("2026-01-02")).map availItem) :=
  (get_availability_sorted envT stEx ("C1") ("2026-01-02") rfl
    (by decide) (by decide)).1

/-! ## C9: the sentiment score rescaling in the chat fallback -/

/-- Modelled from the spec's words "linearly rescaled to [0,100]": the affine
map sending the interval [lo, hi] onto [0, 100]. -/
def specLinearRescale (lo hi q : ℚ) : ℚ := (q - lo) / (hi - lo) * 100

/-- C9 (amended): every chat sentiment score s with -1 ≤ s ≤ 1 is mapped by
the single fixed map (s+1)/2·100 — the linear rescaling of [-1,1] onto
[0,100] — regardless of whether it came from a [0,1]-ranged source; a score
outside [-1,1] is assumed to be on the 0-100 scale already and contributed
unchanged. -/
theorem chat_sentiment_rescaling (q : ℚ) :
    (-1 ≤ q → q ≤ 1 → normalizeSentiment q = specLinearRescale (-1) 1 q)
    ∧ (¬ (-1 ≤ q ∧ q ≤ 1) → normalizeSentiment q = q) := by
  constructor
  · intro h1 h2
    rw [normalizeSentiment, if_pos ⟨h1, h2⟩, specLinearRescale]
    ring_nf
  · intro h
    rw [normalizeSentiment, if_neg h]

/-- Witness for C9's amended theorem at the in-range score 1/2. -/
theorem chat_sentiment_rescaling_witness :
    normalizeSentiment (1/2) = specLinearRescale (-1) 1 (1/2) :=
  (chat_sentiment_rescaling (1/2)).1 (by norm_num) (by norm_num)

/-- C9 counterexample: the score 1/2 lies in [0,1]; the linear rescaling of
the source range [0,1] onto [0,100] sends it to 50, but the code contributes
normalizeSentiment (1/2) = 75 — it always applies the [-1,1] map — so a
[0,1]-ranged score is NOT rescaled from its own source range onto [0,100]. -/
theorem chat_sentiment_rescaling_cex :
    (0 : ℚ) ≤ 1/2 ∧ (1/2 : ℚ) ≤ 1
    ∧ normalizeSentiment (1/2) = 75
    ∧ specLinearRescale 0 1 (1/2) = 50
    ∧ normalizeSentiment (1/2) ≠ specLinearRescale 0 1 (1/2) := by
  norm_num [normalizeSentiment, specLinearRescale]
